import Mathlib

/-! Verification of the inventory-ledger core of a pharmacy management system.

This file is a shallow embedding of the stock-update and journaling logic of
`backend/database/operations.py` (`MedicationRepository.update_stock`,
`MedicationRepository.get_low_stock`), of the medication / sale / user endpoints
of `backend/app.py` (`create_medication`, the per-item stock loop of
`create_sale`, `get_user`, `create_user`), and of the document models of
`backend/models/pharmacy_models.py` (`Medication`, `InventoryTransaction`),
together with proofs and refutations of the specified ledger properties. -/

/-- The `Medication` document (pharmacy_models.py, lines 68-94).  Only the
fields the ledger logic reads are embedded: `quantity_in_stock` (an `IntField`
with `min_value=0`, validated when `.save()` runs) and `reorder_level` (an
`IntField` defaulting to 10, with no lower bound). -/
structure Medication where
  name : String
  quantity_in_stock : Int
  reorder_level : Int
deriving DecidableEq

/-- The `InventoryTransaction` document (pharmacy_models.py, lines 181-196).
`transaction_type` is a `StringField` constrained by
`choices=['purchase', 'sale', 'adjustment', 'return']`, validated when
`.save()` runs.  `created_at` ordering is embedded as list position in the
journal. -/
structure InventoryTransaction where
  medication : Nat
  transaction_type : String
  quantity_change : Int
  previous_quantity : Int
  new_quantity : Int
  reference_id : Option String
  user : String
deriving DecidableEq

/-- The persistent state the ledger claims range over: the `medications`
collection keyed by document id, the append-only `inventory_transactions`
collection in creation order, and an id counter standing for MongoDB's fresh
`_id` generation. -/
structure PharmacyState where
  medications : List (Nat × Medication)
  transactions : List InventoryTransaction
  nextId : Nat
deriving DecidableEq

/-- The empty database. -/
def initState : PharmacyState := ⟨[], [], 0⟩

/-- `Medication.objects(id=medication_id).first()`: the first document whose id
matches, if any. -/
def findMed (s : PharmacyState) (id : Nat) : Option Medication :=
  (s.medications.find? (fun p => p.1 == id)).map Prod.snd

/-- `medication.save()` after mutating fields in place: the document with the
given id is replaced by the given value; the journal and the id counter are
untouched. -/
def saveMed (s : PharmacyState) (id : Nat) (m : Medication) : PharmacyState :=
  ⟨s.medications.map (fun p => if p.1 == id then (id, m) else p),
   s.transactions, s.nextId⟩

/-- `bson.ObjectId(user_id)` succeeds exactly on 24-character hexadecimal
strings; on anything else it raises `InvalidId`. -/
def isValidObjectId (s : String) : Bool :=
  s.data.length == 24 &&
    s.data.all (fun c => c.isDigit || ('a' ≤ c && c ≤ 'f') || ('A' ≤ c && c ≤ 'F'))

/-- The `choices` list of `InventoryTransaction.transaction_type`
(pharmacy_models.py, line 184). -/
def validTransactionType (t : String) : Bool :=
  t == "purchase" || t == "sale" || t == "adjustment" || t == "return"

/-- `MedicationRepository.update_stock` (operations.py, lines 157-189),
embedded step by step inside its `try` block: an unknown id returns `False`;
`new_quantity < 0` raises `ValueError("Insufficient stock")`, caught by the
blanket `except`, returning `False` with nothing written; otherwise
`medication.save()` commits the new quantity FIRST, and only then
`InventoryTransaction(..., user=ObjectId(user_id)).save()` runs — a failure
there (a malformed `user_id`, or a `transaction_type` outside the model's
`choices`) is caught and returns `False` with the quantity update already
persisted and no journal entry written. -/
def update_stock (s : PharmacyState) (medication_id : Nat) (quantity_change : Int)
    (user_id : String) (transaction_type : String) (reference_id : Option String) :
    PharmacyState × Bool :=
  match findMed s medication_id with
  | none => (s, false)
  | some medication =>
    let previous_quantity := medication.quantity_in_stock
    let new_quantity := previous_quantity + quantity_change
    if new_quantity < 0 then
      (s, false)
    else
      let s1 := saveMed s medication_id
        ⟨medication.name, new_quantity, medication.reorder_level⟩
      if isValidObjectId user_id && validTransactionType transaction_type then
        (⟨s1.medications,
          s1.transactions ++ [⟨medication_id, transaction_type, quantity_change,
            previous_quantity, new_quantity, reference_id, user_id⟩],
          s1.nextId⟩, true)
      else
        (s1, false)

/-- The success path of the `create_medication` endpoint (app.py, lines
125-139) composed with `BaseRepository.create`: MongoEngine validation rejects
`quantity_in_stock < 0` (`IntField(min_value=0)`), leaving the state unchanged;
otherwise a document with a fresh id is inserted.  No `InventoryTransaction`
is recorded for the initial quantity. -/
def create_medication (s : PharmacyState) (med : Medication) :
    PharmacyState × Option Nat :=
  if med.quantity_in_stock < 0 then (s, none)
  else (⟨s.medications ++ [(s.nextId, med)], s.transactions, s.nextId + 1⟩,
        some s.nextId)

/-- The per-item stock loop of the `create_sale` endpoint (app.py, lines
305-313): for each sale item, `update_stock(medication, -quantity, user,
'sale', sale_id)` is invoked and its boolean result is discarded. -/
def create_sale_stock_loop (s : PharmacyState) (items : List (Nat × Int))
    (user_id : String) (sale_id : String) : PharmacyState :=
  items.foldl
    (fun st it => (update_stock st it.1 (-it.2) user_id "sale" (some sale_id)).1) s

/-- `Medication.is_low_stock` (pharmacy_models.py, lines 92-94):
`self.quantity_in_stock <= self.reorder_level`. -/
def Medication.is_low_stock (m : Medication) : Bool :=
  decide (m.quantity_in_stock ≤ m.reorder_level)

/-- `MedicationRepository.get_low_stock` (operations.py, lines 124-144): the
aggregation pipeline adds `is_low_stock := $lte [quantity_in_stock,
reorder_level]` to every document and keeps exactly those where it is true. -/
def get_low_stock (s : PharmacyState) : List (Nat × Medication) :=
  s.medications.filter (fun p => decide (p.2.quantity_in_stock ≤ p.2.reorder_level))

/-- A user document as produced by `BaseRepository._to_dict`: its
field-name-to-value dictionary. -/
abbrev UserDoc := List (String × String)

/-- The `get_user` endpoint (app.py, lines 355-363): fetch by id, `None`
standing for the 404 response, then `user.pop('password_hash', None)` before
the response is produced. -/
def get_user (users : List (String × UserDoc)) (user_id : String) :
    Option UserDoc :=
  match users.find? (fun p => p.1 == user_id) with
  | none => none
  | some p => some (p.2.filter (fun f => f.1 != "password_hash"))

/-- `validate_required_fields` (app.py, lines 85-90): every required field
name must be a key of the request data. -/
def validate_required_fields (data : List (String × String))
    (required : List String) : Bool :=
  required.all (fun f => (data.find? (fun p => p.1 == f)).isSome)

/-- The `create_user` endpoint (app.py, lines 365-381): the four required
fields are checked (`None` standing for the 400 response), the user is created
(the created document is the data plus the generated id), and
`user.pop('password_hash', None)` runs before the response is produced.  A
MongoEngine uniqueness or validation failure also yields the 400 response
with no user document in it. -/
def create_user (data : List (String × String)) (new_id : String) :
    Option UserDoc :=
  if validate_required_fields data ["username", "email", "password_hash", "role"] then
    some ((("id", new_id) :: data).filter (fun f => f.1 != "password_hash"))
  else
    none

/-- A ledger-mutating call: the two write paths of the source that touch
`quantity_in_stock` or the journal (the `create_sale` loop is a fold of
`update_stock` calls and so is covered). -/
inductive Op where
  | createMed (med : Medication)
  | updStock (medication_id : Nat) (quantity_change : Int) (user_id : String)
      (transaction_type : String) (reference_id : Option String)
deriving DecidableEq

/-- Run one call against the state, keeping only the state (the endpoints
discard the repository's return value exactly like `create_sale` does). -/
def applyOp (s : PharmacyState) : Op → PharmacyState
  | .createMed med => (create_medication s med).1
  | .updStock mid qc uid tt rid => (update_stock s mid qc uid tt rid).1

/-- Run a sequence of calls from a starting state. -/
def runOps (s : PharmacyState) (ops : List Op) : PharmacyState :=
  ops.foldl applyOp s

/-- A call whose journal write cannot fail: `update_stock` with a well-formed
`user_id` and a `transaction_type` among the model's `choices`. -/
def journalSafe : Op → Bool
  | .createMed _ => true
  | .updStock _ _ uid ttype _ => isValidObjectId uid && validTransactionType ttype

/-- A call that does not inject stock outside the journal: any `update_stock`
call, or a creation with initial quantity zero. -/
def createsAtZero : Op → Bool
  | .createMed med => med.quantity_in_stock == 0
  | .updStock _ _ _ _ _ => true

/-- The journal entries recorded for one item, in creation order
(`history(item_id)` in the specification's terms). -/
def entriesFor (txs : List InventoryTransaction) (id : Nat) :
    List InventoryTransaction :=
  txs.filter (fun t => t.medication == id)

/-- The sum of `quantity_change` over the journal entries of one item. -/
def journalSum (txs : List InventoryTransaction) (id : Nat) : Int :=
  ((entriesFor txs id).map (fun t => t.quantity_change)).sum

/-- Consecutive entries chain: each entry's `new_quantity` equals the next
entry's `previous_quantity`. -/
def chained : List InventoryTransaction → Bool
  | [] => true
  | [_] => true
  | a :: b :: r => (a.new_quantity == b.previous_quantity) && chained (b :: r)

/-- The entries chain and the last `new_quantity` (if any) equals `q`. -/
def chainEndsAt : List InventoryTransaction → Int → Bool
  | [], _ => true
  | [a], q => a.new_quantity == q
  | a :: b :: r, q => (a.new_quantity == b.previous_quantity) && chainEndsAt (b :: r) q

/-- Basic well-formedness that every trace preserves: item ids and journal
references stay below the id counter, quantities are never negative, and every
journal entry satisfies the `new = previous + change` arithmetic. -/
def StateWF (s : PharmacyState) : Prop :=
  (∀ p ∈ s.medications, p.1 < s.nextId ∧ 0 ≤ p.2.quantity_in_stock) ∧
  (∀ t ∈ s.transactions, t.medication < s.nextId ∧
    t.new_quantity = t.previous_quantity + t.quantity_change)

/-- The ledger-sum invariant: every existing item's quantity is the sum of its
journal entries. -/
def SumInv (s : PharmacyState) : Prop :=
  ∀ id m, findMed s id = some m →
    m.quantity_in_stock = journalSum s.transactions id

/-- The chain invariant: every existing item's journal chains and ends at the
item's current quantity, and items that do not exist have no entries. -/
def ChainInv (s : PharmacyState) : Prop :=
  (∀ id m, findMed s id = some m →
    chainEndsAt (entriesFor s.transactions id) m.quantity_in_stock = true) ∧
  (∀ id, findMed s id = none → entriesFor s.transactions id = [])

/-- A well-formed 24-character hexadecimal ObjectId used by concrete test
states. -/
def sampleUserId : String := "64a1f0c2b3d4e5f601234567"

/-! ### Basic lemmas about the embedded operations -/

theorem findMed_mk (l : List (Nat × Medication)) (txs : List InventoryTransaction)
    (n : Nat) (id : Nat) :
    findMed ⟨l, txs, n⟩ id = (l.find? (fun p => p.1 == id)).map Prod.snd := rfl

theorem findMed_some_mem {s : PharmacyState} {id : Nat} {m : Medication}
    (h : findMed s id = some m) : (id, m) ∈ s.medications := by
  unfold findMed at h
  cases hf : s.medications.find? (fun p => p.1 == id) with
  | none => rw [hf] at h; cases h
  | some x =>
    have hmem := List.mem_of_find?_eq_some hf
    have hpred := List.find?_some hf
    rw [hf] at h
    obtain ⟨x1, x2⟩ := x
    have h1 : x1 = id := by simpa using hpred
    have h2 : x2 = m := by simpa using h
    rw [h1, h2] at hmem
    exact hmem

theorem find?_update_ne (l : List (Nat × Medication)) {mid id : Nat} (m' : Medication)
    (h : id ≠ mid) :
    (l.map (fun p => if p.1 == mid then (mid, m') else p)).find? (fun p => p.1 == id) =
      l.find? (fun p => p.1 == id) := by
  induction l with
  | nil => rfl
  | cons a t ih =>
    obtain ⟨a1, a2⟩ := a
    simp only [List.map_cons]
    by_cases ham : a1 = mid
    · rw [if_pos (show (((a1, a2).1 == mid) = true) from beq_iff_eq.mpr ham)]
      rw [List.find?_cons_of_neg _ (by simp; exact Ne.symm h), ih,
          List.find?_cons_of_neg _ (by simp [ham]; exact Ne.symm h)]
    · rw [if_neg (show ¬ (((a1, a2).1 == mid) = true) by simp [ham])]
      by_cases hai : a1 = id
      · rw [List.find?_cons_of_pos _ (by simp [hai]),
            List.find?_cons_of_pos _ (by simp [hai])]
      · rw [List.find?_cons_of_neg _ (by simp [hai]), ih,
            List.find?_cons_of_neg _ (by simp [hai])]

theorem find?_update_self (l : List (Nat × Medication)) {mid : Nat} (m' : Medication)
    {x : Nat × Medication} (h : l.find? (fun p => p.1 == mid) = some x) :
    (l.map (fun p => if p.1 == mid then (mid, m') else p)).find? (fun p => p.1 == mid) =
      some (mid, m') := by
  induction l with
  | nil => cases h
  | cons a t ih =>
    obtain ⟨a1, a2⟩ := a
    simp only [List.map_cons]
    by_cases ham : a1 = mid
    · rw [if_pos (show (((a1, a2).1 == mid) = true) from beq_iff_eq.mpr ham)]
      rw [List.find?_cons_of_pos _ (by simp)]
    · rw [if_neg (show ¬ (((a1, a2).1 == mid) = true) by simp [ham])]
      rw [List.find?_cons_of_neg _ (by simp [ham])]
      rw [List.find?_cons_of_neg _ (by simp [ham])] at h
      exact ih h

theorem findMed_saveMed_ne {s : PharmacyState} {mid id : Nat} (m' : Medication)
    (h : id ≠ mid) : findMed (saveMed s mid m') id = findMed s id := by
  unfold findMed saveMed
  rw [find?_update_ne s.medications m' h]

theorem findMed_saveMed_self {s : PharmacyState} {mid : Nat} (m' : Medication)
    {m : Medication} (h : findMed s mid = some m) :
    findMed (saveMed s mid m') mid = some m' := by
  unfold findMed at h ⊢
  unfold saveMed
  cases hf : s.medications.find? (fun p => p.1 == mid) with
  | none => rw [hf] at h; cases h
  | some x => rw [find?_update_self s.medications m' hf]; rfl

theorem update_stock_not_found {s : PharmacyState} {mid : Nat} {qc : Int}
    {uid ttype : String} {rid : Option String} (h : findMed s mid = none) :
    update_stock s mid qc uid ttype rid = (s, false) := by
  unfold update_stock
  rw [h]

theorem update_stock_insufficient {s : PharmacyState} {mid : Nat} {qc : Int}
    {uid ttype : String} {rid : Option String} {m : Medication}
    (h : findMed s mid = some m) (hq : m.quantity_in_stock + qc < 0) :
    update_stock s mid qc uid ttype rid = (s, false) := by
  unfold update_stock
  rw [h]
  dsimp only
  rw [if_pos hq]

theorem update_stock_journal_failed {s : PharmacyState} {mid : Nat} {qc : Int}
    {uid ttype : String} {rid : Option String} {m : Medication}
    (h : findMed s mid = some m) (hq : 0 ≤ m.quantity_in_stock + qc)
    (hj : (isValidObjectId uid && validTransactionType ttype) = false) :
    update_stock s mid qc uid ttype rid =
      (saveMed s mid ⟨m.name, m.quantity_in_stock + qc, m.reorder_level⟩, false) := by
  unfold update_stock
  rw [h]
  dsimp only
  rw [if_neg (not_lt.mpr hq), hj]
  rfl

theorem update_stock_success {s : PharmacyState} {mid : Nat} {qc : Int}
    {uid ttype : String} {rid : Option String} {m : Medication}
    (h : findMed s mid = some m) (hq : 0 ≤ m.quantity_in_stock + qc)
    (hj : (isValidObjectId uid && validTransactionType ttype) = true) :
    update_stock s mid qc uid ttype rid =
      (⟨(saveMed s mid ⟨m.name, m.quantity_in_stock + qc, m.reorder_level⟩).medications,
        s.transactions ++ [⟨mid, ttype, qc, m.quantity_in_stock,
          m.quantity_in_stock + qc, rid, uid⟩],
        s.nextId⟩, true) := by
  unfold update_stock
  rw [h]
  dsimp only
  rw [if_neg (not_lt.mpr hq), hj]
  rfl

theorem entriesFor_append_self {txs : List InventoryTransaction}
    {e : InventoryTransaction} {id : Nat} (h : e.medication = id) :
    entriesFor (txs ++ [e]) id = entriesFor txs id ++ [e] := by
  unfold entriesFor
  rw [List.filter_append]
  simp [h]

theorem entriesFor_append_ne {txs : List InventoryTransaction}
    {e : InventoryTransaction} {id : Nat} (h : e.medication ≠ id) :
    entriesFor (txs ++ [e]) id = entriesFor txs id := by
  unfold entriesFor
  rw [List.filter_append]
  simp [h]

theorem entriesFor_eq_nil {txs : List InventoryTransaction} {id : Nat}
    (h : ∀ t ∈ txs, t.medication ≠ id) : entriesFor txs id = [] := by
  unfold entriesFor
  rw [List.filter_eq_nil_iff]
  intro t ht
  simp [h t ht]

theorem journalSum_append_self {txs : List InventoryTransaction}
    {e : InventoryTransaction} {id : Nat} (h : e.medication = id) :
    journalSum (txs ++ [e]) id = journalSum txs id + e.quantity_change := by
  unfold journalSum
  rw [entriesFor_append_self h, List.map_append, List.sum_append]
  simp

theorem journalSum_append_ne {txs : List InventoryTransaction}
    {e : InventoryTransaction} {id : Nat} (h : e.medication ≠ id) :
    journalSum (txs ++ [e]) id = journalSum txs id := by
  unfold journalSum
  rw [entriesFor_append_ne h]

theorem chainEndsAt_append {l : List InventoryTransaction} {q : Int}
    (e : InventoryTransaction) (h : chainEndsAt l q = true)
    (he : e.previous_quantity = q) :
    chainEndsAt (l ++ [e]) e.new_quantity = true := by
  induction l generalizing q with
  | nil => simp [chainEndsAt]
  | cons a t ih =>
    cases t with
    | nil =>
      simp only [chainEndsAt] at h
      simp only [List.cons_append, List.nil_append, chainEndsAt]
      rw [he, ← beq_iff_eq.mp h]
      simp
    | cons b r =>
      simp only [chainEndsAt, Bool.and_eq_true] at h
      simp only [List.cons_append, chainEndsAt, Bool.and_eq_true]
      exact ⟨h.1, ih h.2 he⟩

theorem chained_of_chainEndsAt {l : List InventoryTransaction} {q : Int}
    (h : chainEndsAt l q = true) : chained l = true := by
  induction l generalizing q with
  | nil => rfl
  | cons a t ih =>
    cases t with
    | nil => rfl
    | cons b r =>
      simp only [chainEndsAt, Bool.and_eq_true] at h
      simp only [chained, Bool.and_eq_true]
      exact ⟨h.1, ih h.2⟩

theorem chained_tail {x : InventoryTransaction} {l : List InventoryTransaction}
    (h : chained (x :: l) = true) : chained l = true := by
  cases l with
  | nil => rfl
  | cons y r =>
    simp only [chained, Bool.and_eq_true] at h
    exact h.2

theorem chained_pair {pre post : List InventoryTransaction}
    {a b : InventoryTransaction} (h : chained (pre ++ a :: b :: post) = true) :
    a.new_quantity = b.previous_quantity := by
  induction pre with
  | nil =>
    simp only [List.nil_append, chained, Bool.and_eq_true] at h
    exact beq_iff_eq.mp h.1
  | cons x t ih =>
    exact ih (chained_tail (by simpa using h))

theorem findMed_create {s : PharmacyState} (med : Medication) (id : Nat)
    (hbound : ∀ p ∈ s.medications, p.1 < s.nextId) :
    findMed ⟨s.medications ++ [(s.nextId, med)], s.transactions, s.nextId + 1⟩ id =
      if id = s.nextId then some med else findMed s id := by
  rw [findMed_mk, List.find?_append]
  by_cases hid : id = s.nextId
  · have hnone : s.medications.find? (fun p => p.1 == id) = none := by
      rw [List.find?_eq_none]
      intro p hp
      have h1 := hbound p hp
      simp only [beq_iff_eq]
      omega
    rw [hnone, if_pos hid]
    simp [List.find?_cons, hid]
  · have hsingle : [(s.nextId, med)].find? (fun p => p.1 == id) = none := by
      simp [List.find?_cons, Ne.symm hid]
    rw [hsingle, if_neg hid, Option.or_none]
    rfl

theorem stateWF_initState : StateWF initState := by
  constructor
  · intro p hp; simp [initState] at hp
  · intro t ht; simp [initState] at ht

theorem stateWF_applyOp {s : PharmacyState} (hs : StateWF s) (op : Op) :
    StateWF (applyOp s op) := by
  obtain ⟨hmeds, htxs⟩ := hs
  cases op with
  | createMed med =>
    show StateWF (create_medication s med).1
    by_cases hneg : med.quantity_in_stock < 0
    · rw [create_medication, if_pos hneg]
      exact ⟨hmeds, htxs⟩
    · rw [create_medication, if_neg hneg]
      constructor
      · intro p hp
        rcases List.mem_append.mp hp with hp | hp
        · exact ⟨Nat.lt_succ_of_lt (hmeds p hp).1, (hmeds p hp).2⟩
        · rcases List.mem_singleton.mp hp with rfl
          exact ⟨Nat.lt_succ_self _, not_lt.mp hneg⟩
      · intro t ht
        exact ⟨Nat.lt_succ_of_lt (htxs t ht).1, (htxs t ht).2⟩
  | updStock mid qc uid ttype rid =>
    show StateWF (update_stock s mid qc uid ttype rid).1
    cases hf : findMed s mid with
    | none => rw [update_stock_not_found hf]; exact ⟨hmeds, htxs⟩
    | some m =>
      have hmid : mid < s.nextId := (hmeds (mid, m) (findMed_some_mem hf)).1
      by_cases hq : m.quantity_in_stock + qc < 0
      · rw [update_stock_insufficient hf hq]; exact ⟨hmeds, htxs⟩
      · have hq' : 0 ≤ m.quantity_in_stock + qc := not_lt.mp hq
        have hsave : ∀ p ∈ (saveMed s mid
            ⟨m.name, m.quantity_in_stock + qc, m.reorder_level⟩).medications,
            p.1 < s.nextId ∧ 0 ≤ p.2.quantity_in_stock := by
          intro p hp
          rcases List.mem_map.mp hp with ⟨q, hq2, rfl⟩
          by_cases hqm : q.1 = mid
          · rw [if_pos (show ((q.1 == mid) = true) from beq_iff_eq.mpr hqm)]
            exact ⟨hmid, hq'⟩
          · rw [if_neg (show ¬ ((q.1 == mid) = true) by simp [hqm])]
            exact hmeds q hq2
        by_cases hjj : (isValidObjectId uid && validTransactionType ttype) = true
        · rw [update_stock_success hf hq' hjj]
          constructor
          · intro p hp
            exact hsave p hp
          · intro t ht
            rcases List.mem_append.mp ht with ht | ht
            · exact htxs t ht
            · rcases List.mem_singleton.mp ht with rfl
              exact ⟨hmid, rfl⟩
        · rw [update_stock_journal_failed hf hq' (by simpa using hjj)]
          exact ⟨hsave, htxs⟩

theorem stateWF_runOps (ops : List Op) {s : PharmacyState} (hs : StateWF s) :
    StateWF (runOps s ops) := by
  induction ops generalizing s with
  | nil => exact hs
  | cons op ops ih => exact ih (stateWF_applyOp hs op)

theorem sumInv_initState : SumInv initState := by
  intro id m hm
  cases hm

theorem sumInv_applyOp {s : PharmacyState} (hwf : StateWF s) (hsum : SumInv s)
    {op : Op} (hop : (journalSafe op && createsAtZero op) = true) :
    SumInv (applyOp s op) := by
  obtain ⟨hmeds, htxs⟩ := hwf
  cases op with
  | createMed med =>
    have hzero : med.quantity_in_stock = 0 := by
      simp only [journalSafe, createsAtZero, Bool.true_and, beq_iff_eq] at hop
      exact hop
    show SumInv (create_medication s med).1
    rw [create_medication, if_neg (by rw [hzero]; exact lt_irrefl 0)]
    intro id m hm
    rw [findMed_create med id (fun p hp => (hmeds p hp).1)] at hm
    by_cases hid : id = s.nextId
    · rw [if_pos hid] at hm
      cases hm
      show med.quantity_in_stock = journalSum s.transactions id
      rw [hzero]
      have hnil : entriesFor s.transactions id = [] := by
        apply entriesFor_eq_nil
        intro t ht
        have h1 := (htxs t ht).1
        omega
      unfold journalSum
      rw [hnil]
      rfl
    · rw [if_neg hid] at hm
      exact hsum id m hm
  | updStock mid qc uid ttype rid =>
    have hsafe : (isValidObjectId uid && validTransactionType ttype) = true := by
      simp only [journalSafe, createsAtZero, Bool.and_true] at hop
      exact hop
    show SumInv (update_stock s mid qc uid ttype rid).1
    cases hf : findMed s mid with
    | none => rw [update_stock_not_found hf]; exact hsum
    | some m =>
      by_cases hq : m.quantity_in_stock + qc < 0
      · rw [update_stock_insufficient hf hq]; exact hsum
      · rw [update_stock_success hf (not_lt.mp hq) hsafe]
        dsimp only
        intro id m' hm'
        have heq : findMed (⟨(saveMed s mid
              ⟨m.name, m.quantity_in_stock + qc, m.reorder_level⟩).medications,
            s.transactions ++ [⟨mid, ttype, qc, m.quantity_in_stock,
              m.quantity_in_stock + qc, rid, uid⟩],
            s.nextId⟩ : PharmacyState) id =
            findMed (saveMed s mid
              ⟨m.name, m.quantity_in_stock + qc, m.reorder_level⟩) id := rfl
        rw [heq] at hm'
        by_cases hid : id = mid
        · rw [hid] at hm' ⊢
          rw [findMed_saveMed_self _ hf] at hm'
          cases hm'
          show m.quantity_in_stock + qc = journalSum (s.transactions ++ [_]) mid
          rw [journalSum_append_self rfl]
          rw [hsum mid m hf]
        · rw [findMed_saveMed_ne _ hid] at hm'
          show m'.quantity_in_stock = journalSum (s.transactions ++ [_]) id
          rw [journalSum_append_ne (fun hh => hid hh.symm)]
          exact hsum id m' hm'

theorem chainInv_initState : ChainInv initState := by
  constructor
  · intro id m hm; cases hm
  · intro id _; rfl

theorem chainInv_applyOp {s : PharmacyState} (hwf : StateWF s) (hch : ChainInv s)
    {op : Op} (hop : journalSafe op = true) :
    ChainInv (applyOp s op) := by
  obtain ⟨hmeds, htxs⟩ := hwf
  obtain ⟨hsome, hnone⟩ := hch
  cases op with
  | createMed med =>
    show ChainInv (create_medication s med).1
    by_cases hneg : med.quantity_in_stock < 0
    · rw [create_medication, if_pos hneg]
      exact ⟨hsome, hnone⟩
    · rw [create_medication, if_neg hneg]
      constructor
      · intro id m hm
        rw [findMed_create med id (fun p hp => (hmeds p hp).1)] at hm
        by_cases hid : id = s.nextId
        · rw [if_pos hid] at hm
          cases hm
          have hnil : entriesFor s.transactions id = [] := by
            apply entriesFor_eq_nil
            intro t ht
            have h1 := (htxs t ht).1
            omega
          show chainEndsAt (entriesFor s.transactions id) _ = true
          rw [hnil]
          rfl
        · rw [if_neg hid] at hm
          exact hsome id m hm
      · intro id hm
        rw [findMed_create med id (fun p hp => (hmeds p hp).1)] at hm
        by_cases hid : id = s.nextId
        · rw [if_pos hid] at hm; cases hm
        · rw [if_neg hid] at hm
          exact hnone id hm
  | updStock mid qc uid ttype rid =>
    have hsafe : (isValidObjectId uid && validTransactionType ttype) = true := by
      simpa [journalSafe] using hop
    show ChainInv (update_stock s mid qc uid ttype rid).1
    cases hf : findMed s mid with
    | none => rw [update_stock_not_found hf]; exact ⟨hsome, hnone⟩
    | some m =>
      by_cases hq : m.quantity_in_stock + qc < 0
      · rw [update_stock_insufficient hf hq]; exact ⟨hsome, hnone⟩
      · rw [update_stock_success hf (not_lt.mp hq) hsafe]
        dsimp only
        constructor
        · intro id m' hm'
          have heq : findMed (⟨(saveMed s mid
                ⟨m.name, m.quantity_in_stock + qc, m.reorder_level⟩).medications,
              s.transactions ++ [⟨mid, ttype, qc, m.quantity_in_stock,
                m.quantity_in_stock + qc, rid, uid⟩],
              s.nextId⟩ : PharmacyState) id =
              findMed (saveMed s mid
                ⟨m.name, m.quantity_in_stock + qc, m.reorder_level⟩) id := rfl
          rw [heq] at hm'
          by_cases hid : id = mid
          · rw [hid] at hm' ⊢
            rw [findMed_saveMed_self _ hf] at hm'
            cases hm'
            show chainEndsAt (entriesFor (s.transactions ++ [_]) mid) _ = true
            rw [entriesFor_append_self rfl]
            exact chainEndsAt_append _ (hsome mid m hf) rfl
          · rw [findMed_saveMed_ne _ hid] at hm'
            show chainEndsAt (entriesFor (s.transactions ++ [_]) id) _ = true
            rw [entriesFor_append_ne (fun hh => hid hh.symm)]
            exact hsome id m' hm'
        · intro id hm'
          have heq : findMed (⟨(saveMed s mid
                ⟨m.name, m.quantity_in_stock + qc, m.reorder_level⟩).medications,
              s.transactions ++ [⟨mid, ttype, qc, m.quantity_in_stock,
                m.quantity_in_stock + qc, rid, uid⟩],
              s.nextId⟩ : PharmacyState) id =
              findMed (saveMed s mid
                ⟨m.name, m.quantity_in_stock + qc, m.reorder_level⟩) id := rfl
          rw [heq] at hm'
          by_cases hid : id = mid
          · rw [hid, findMed_saveMed_self _ hf] at hm'
            cases hm'
          · rw [findMed_saveMed_ne _ hid] at hm'
            show entriesFor (s.transactions ++ [_]) id = []
            rw [entriesFor_append_ne (fun hh => hid hh.symm)]
            exact hnone id hm'

theorem sumInv_runOps (ops : List Op) {s : PharmacyState}
    (hwf : StateWF s) (hsum : SumInv s)
    (hops : ops.all (fun o => journalSafe o && createsAtZero o) = true) :
    SumInv (runOps s ops) := by
  induction ops generalizing s with
  | nil => exact hsum
  | cons op ops ih =>
    rw [List.all_cons, Bool.and_eq_true] at hops
    exact ih (stateWF_applyOp ⟨hwf.1, hwf.2⟩ op) (sumInv_applyOp hwf hsum hops.1) hops.2

theorem chainInv_runOps (ops : List Op) {s : PharmacyState}
    (hwf : StateWF s) (hch : ChainInv s)
    (hops : ops.all journalSafe = true) :
    ChainInv (runOps s ops) := by
  induction ops generalizing s with
  | nil => exact hch
  | cons op ops ih =>
    rw [List.all_cons, Bool.and_eq_true] at hops
    exact ih (stateWF_applyOp hwf op) (chainInv_applyOp hwf hch hops.1) hops.2

theorem findMed_meds_only (X : PharmacyState) (txs : List InventoryTransaction)
    (n : Nat) (id : Nat) :
    findMed ⟨X.medications, txs, n⟩ id = findMed X id := rfl

/-! ### Claim theorems -/

/-- C1, counterexample.  The claim says the batch `[(A, -5), (B, -3)]` with B
holding only 2 units fails as a whole, leaving A's quantity unchanged (10) and
no journal entry visible.  Running the per-item loop of `create_sale` on
exactly that batch computes: A's quantity is NOT 10 — it has been decremented
to 5 — and one journal entry (A's) has been committed. -/
theorem create_sale_c1_cex :
    (findMed (create_sale_stock_loop (runOps initState
        [Op.createMed ⟨"A", 10, 10⟩, Op.createMed ⟨"B", 2, 10⟩]) [(0, 5), (1, 3)]
        sampleUserId "sale-1") 0).map Medication.quantity_in_stock ≠ some 10
    ∧ (findMed (create_sale_stock_loop (runOps initState
        [Op.createMed ⟨"A", 10, 10⟩, Op.createMed ⟨"B", 2, 10⟩]) [(0, 5), (1, 3)]
        sampleUserId "sale-1") 0).map Medication.quantity_in_stock = some 5
    ∧ (create_sale_stock_loop (runOps initState
        [Op.createMed ⟨"A", 10, 10⟩, Op.createMed ⟨"B", 2, 10⟩]) [(0, 5), (1, 3)]
        sampleUserId "sale-1").transactions.length = 1 := by decide

/-- C1, amended.  The per-item loop of `create_sale` applies each item's stock
change independently and ignores failures: for a two-item batch where the
first item has sufficient stock and the second does not, the first item's
quantity IS decremented and journaled while the second item is left unchanged
— there is no rollback and no all-or-nothing behaviour. -/
theorem create_sale_c1_amended (s : PharmacyState) (a b : Nat) (qa qb : Int)
    (ma mb : Medication) (uid sid : String)
    (hab : a ≠ b)
    (ha : findMed s a = some ma) (hb : findMed s b = some mb)
    (hqa : 0 ≤ ma.quantity_in_stock - qa)
    (hqb : mb.quantity_in_stock - qb < 0)
    (huid : isValidObjectId uid = true) :
    (findMed (create_sale_stock_loop s [(a, qa), (b, qb)] uid sid) a).map
        Medication.quantity_in_stock = some (ma.quantity_in_stock - qa)
    ∧ findMed (create_sale_stock_loop s [(a, qa), (b, qb)] uid sid) b = some mb
    ∧ (create_sale_stock_loop s [(a, qa), (b, qb)] uid sid).transactions.length
        = s.transactions.length + 1 := by
  have hqa' : 0 ≤ ma.quantity_in_stock + -qa := by omega
  have hj : (isValidObjectId uid && validTransactionType "sale") = true := by
    simp [huid, validTransactionType]
  have h1 := @update_stock_success s a (-qa) uid "sale" (some sid) ma ha hqa' hj
  have hloop : create_sale_stock_loop s [(a, qa), (b, qb)] uid sid =
      (update_stock (update_stock s a (-qa) uid "sale" (some sid)).1
        b (-qb) uid "sale" (some sid)).1 := rfl
  rw [hloop, h1]
  dsimp only
  have hfb : findMed (⟨(saveMed s a
        ⟨ma.name, ma.quantity_in_stock + -qa, ma.reorder_level⟩).medications,
      s.transactions ++ [⟨a, "sale", -qa, ma.quantity_in_stock,
        ma.quantity_in_stock + -qa, some sid, uid⟩],
      s.nextId⟩ : PharmacyState) b = some mb := by
    rw [findMed_meds_only, findMed_saveMed_ne _ (Ne.symm hab)]
    exact hb
  rw [update_stock_insufficient hfb (by omega)]
  dsimp only
  refine ⟨?_, hfb, ?_⟩
  · rw [findMed_meds_only, findMed_saveMed_self _ ha]
    simp [sub_eq_add_neg]
  · simp

/-- C1, witness for the amended theorem at a concrete two-item batch. -/
theorem create_sale_c1_amended_witness :
    (findMed (create_sale_stock_loop (runOps initState
        [Op.createMed ⟨"A", 10, 10⟩, Op.createMed ⟨"B", 2, 10⟩]) [(0, 5), (1, 3)]
        sampleUserId "sale-9") 0).map Medication.quantity_in_stock = some 5
    ∧ findMed (create_sale_stock_loop (runOps initState
        [Op.createMed ⟨"A", 10, 10⟩, Op.createMed ⟨"B", 2, 10⟩]) [(0, 5), (1, 3)]
        sampleUserId "sale-9") 1 = some ⟨"B", 2, 10⟩
    ∧ (create_sale_stock_loop (runOps initState
        [Op.createMed ⟨"A", 10, 10⟩, Op.createMed ⟨"B", 2, 10⟩]) [(0, 5), (1, 3)]
        sampleUserId "sale-9").transactions.length = 1 :=
  create_sale_c1_amended _ 0 1 5 3 ⟨"A", 10, 10⟩ ⟨"B", 2, 10⟩ sampleUserId "sale-9"
    (by decide) (by decide) (by decide) (by decide) (by decide) (by decide)

/-- C2, counterexample.  Creating a medication with a non-zero initial
quantity records no journal entry, so its quantity (10) differs from the sum
of its recorded changes (0) — the claimed invariant fails exactly for items
created with a non-zero initial quantity. -/
theorem ledger_sum_c2_cex :
    (findMed (runOps initState [Op.createMed ⟨"Aspirin", 10, 10⟩]) 0).map
        Medication.quantity_in_stock = some 10
    ∧ journalSum (runOps initState [Op.createMed ⟨"Aspirin", 10, 10⟩]).transactions 0 = 0
    ∧ (10 : Int) ≠ 0 := by decide

/-- C2, amended.  For states reachable from the empty database by
`create_medication` and `update_stock` calls in which every medication is
created with initial quantity zero, and every `update_stock` call carries a
well-formed user id and a recognized transaction type (so its journal write
cannot fail after the quantity write), each medication's quantity equals the
sum of `quantity_change` over its journal entries. -/
theorem ledger_sum_c2_amended (ops : List Op)
    (hops : ops.all (fun o => journalSafe o && createsAtZero o) = true)
    (id : Nat) (m : Medication)
    (hm : findMed (runOps initState ops) id = some m) :
    m.quantity_in_stock = journalSum (runOps initState ops).transactions id :=
  sumInv_runOps ops stateWF_initState sumInv_initState hops id m hm

/-- C2, witness for the amended theorem at a concrete clean trace. -/
theorem ledger_sum_c2_amended_witness :
    (5 : Int) = journalSum (runOps initState [Op.createMed ⟨"A", 0, 10⟩,
      Op.updStock 0 5 sampleUserId "adjustment" none]).transactions 0 :=
  ledger_sum_c2_amended [Op.createMed ⟨"A", 0, 10⟩,
      Op.updStock 0 5 sampleUserId "adjustment" none]
    (by decide) 0 ⟨"A", 5, 10⟩ (by decide)

/-- C3.  A call to `update_stock` for which `previous_quantity +
quantity_change < 0` fails (the internal `ValueError("Insufficient stock")`
surfaces as the return value `False`) with the state — item quantity and
journal — completely unchanged; and consequently in every state reachable
from the empty database no medication's quantity is below zero. -/
theorem update_stock_c3 :
    (∀ s mid qc uid ttype rid m, findMed s mid = some m →
      m.quantity_in_stock + qc < 0 →
      update_stock s mid qc uid ttype rid = (s, false))
    ∧ (∀ ops id m, findMed (runOps initState ops) id = some m →
      0 ≤ m.quantity_in_stock) := by
  constructor
  · intro s mid qc uid ttype rid m hf hq
    exact update_stock_insufficient hf hq
  · intro ops id m hm
    have hwf := stateWF_runOps ops stateWF_initState
    exact (hwf.1 (id, m) (findMed_some_mem hm)).2

/-- C3, witness: over-deducting from a stock of 5 fails and preserves the
state, and the quantity in the reachable state is non-negative. -/
theorem update_stock_c3_witness :
    update_stock (runOps initState [Op.createMed ⟨"Amoxicillin", 5, 10⟩]) 0 (-9)
        sampleUserId "sale" none
      = (runOps initState [Op.createMed ⟨"Amoxicillin", 5, 10⟩], false)
    ∧ (0 : Int) ≤ 5 :=
  ⟨update_stock_c3.1 (runOps initState [Op.createMed ⟨"Amoxicillin", 5, 10⟩])
      0 (-9) sampleUserId "sale" none ⟨"Amoxicillin", 5, 10⟩ (by decide) (by decide),
   update_stock_c3.2 [Op.createMed ⟨"Amoxicillin", 5, 10⟩] 0 ⟨"Amoxicillin", 5, 10⟩
      (by decide)⟩

/-- C4, counterexample.  A failing `update_stock` call (return value `False`)
does NOT leave the state unchanged: with an unrecognized transaction type the
quantity write has already been committed (5 became 8) when the journal write
fails, so the two side effects are not visible together-or-not-at-all. -/
theorem update_stock_c4_cex :
    (update_stock (runOps initState [Op.createMed ⟨"Ibuprofen", 5, 10⟩]) 0 3
        sampleUserId "restock" none).2 = false
    ∧ (update_stock (runOps initState [Op.createMed ⟨"Ibuprofen", 5, 10⟩]) 0 3
        sampleUserId "restock" none).1
        ≠ runOps initState [Op.createMed ⟨"Ibuprofen", 5, 10⟩]
    ∧ (findMed (update_stock (runOps initState [Op.createMed ⟨"Ibuprofen", 5, 10⟩]) 0 3
        sampleUserId "restock" none).1 0).map Medication.quantity_in_stock = some 8
    ∧ (update_stock (runOps initState [Op.createMed ⟨"Ibuprofen", 5, 10⟩]) 0 3
        sampleUserId "restock" none).1.transactions = [] := by decide

/-- C4, amended.  The exact effect of every `update_stock` call: an unknown
id or an insufficient stock leaves the state unchanged; a successful call
performs exactly one quantity update and one journal append; but a call whose
journal write fails (malformed user id or unrecognized transaction type)
commits the quantity update alone and appends nothing — the two writes are
not atomic. -/
theorem update_stock_c4_amended (s : PharmacyState) (mid : Nat) (qc : Int)
    (uid ttype : String) (rid : Option String) :
    (findMed s mid = none → update_stock s mid qc uid ttype rid = (s, false))
    ∧ (∀ m, findMed s mid = some m →
        (m.quantity_in_stock + qc < 0 →
          update_stock s mid qc uid ttype rid = (s, false))
        ∧ (0 ≤ m.quantity_in_stock + qc →
            (isValidObjectId uid && validTransactionType ttype) = true →
            update_stock s mid qc uid ttype rid =
              (⟨(saveMed s mid ⟨m.name, m.quantity_in_stock + qc,
                  m.reorder_level⟩).medications,
                s.transactions ++ [⟨mid, ttype, qc, m.quantity_in_stock,
                  m.quantity_in_stock + qc, rid, uid⟩], s.nextId⟩, true))
        ∧ (0 ≤ m.quantity_in_stock + qc →
            (isValidObjectId uid && validTransactionType ttype) = false →
            update_stock s mid qc uid ttype rid =
              (saveMed s mid ⟨m.name, m.quantity_in_stock + qc,
                m.reorder_level⟩, false))) :=
  ⟨fun h => update_stock_not_found h,
   fun _ hm =>
    ⟨fun hq => update_stock_insufficient hm hq,
     fun hq hj => update_stock_success hm hq hj,
     fun hq hj => update_stock_journal_failed hm hq hj⟩⟩

/-- C4, witness: the partial-write case and the successful case of the
amended theorem at a concrete state. -/
theorem update_stock_c4_amended_witness :
    update_stock (runOps initState [Op.createMed ⟨"Ibuprofen", 5, 10⟩]) 0 3
        sampleUserId "restock" none
      = (saveMed (runOps initState [Op.createMed ⟨"Ibuprofen", 5, 10⟩]) 0
          ⟨"Ibuprofen", 8, 10⟩, false)
    ∧ update_stock (runOps initState [Op.createMed ⟨"Ibuprofen", 5, 10⟩]) 0 3
        sampleUserId "adjustment" none
      = (⟨(saveMed (runOps initState [Op.createMed ⟨"Ibuprofen", 5, 10⟩]) 0
            ⟨"Ibuprofen", 8, 10⟩).medications,
          (runOps initState [Op.createMed ⟨"Ibuprofen", 5, 10⟩]).transactions ++
            [⟨0, "adjustment", 3, 5, 8, none, sampleUserId⟩],
          (runOps initState [Op.createMed ⟨"Ibuprofen", 5, 10⟩]).nextId⟩, true) :=
  ⟨((update_stock_c4_amended _ 0 3 sampleUserId "restock" none).2 ⟨"Ibuprofen", 5, 10⟩
      (by decide)).2.2 (by decide) (by decide),
   ((update_stock_c4_amended _ 0 3 sampleUserId "adjustment" none).2 ⟨"Ibuprofen", 5, 10⟩
      (by decide)).2.1 (by decide) (by decide)⟩

/-- C5, counterexample.  A failed journal write between two successful calls
breaks the chain: after creating at 0, adding 5 (logged), adding 3 with an
unrecognized type (quantity updated to 8, nothing logged), and adding 2
(logged), the item's two journal entries are (0 → 5) and (8 → 10): the first
entry's `new_quantity` (5) differs from the second's `previous_quantity` (8). -/
theorem journal_chain_c5_cex :
    entriesFor (runOps initState
      [Op.createMed ⟨"A", 0, 10⟩,
       Op.updStock 0 5 sampleUserId "adjustment" none,
       Op.updStock 0 3 sampleUserId "restock" none,
       Op.updStock 0 2 sampleUserId "adjustment" none]).transactions 0
      = [⟨0, "adjustment", 5, 0, 5, none, sampleUserId⟩,
         ⟨0, "adjustment", 2, 8, 10, none, sampleUserId⟩]
    ∧ (5 : Int) ≠ 8 := by decide

/-- C5, amended.  Every journal entry ever written satisfies `new_quantity =
previous_quantity + quantity_change` (unconditionally); and consecutive
entries of one item chain — entry n's `previous_quantity` equals entry n-1's
`new_quantity` — provided every `update_stock` call in the trace carried a
well-formed user id and a recognized transaction type, so no partial write
broke the chain. -/
theorem journal_chain_c5_amended :
    (∀ ops t, t ∈ (runOps initState ops).transactions →
      t.new_quantity = t.previous_quantity + t.quantity_change)
    ∧ (∀ ops, ops.all journalSafe = true →
        ∀ id pre a b post,
          entriesFor (runOps initState ops).transactions id = pre ++ a :: b :: post →
          a.new_quantity = b.previous_quantity) := by
  constructor
  · intro ops t ht
    exact ((stateWF_runOps ops stateWF_initState).2 t ht).2
  · intro ops hops id pre a b post hsplit
    have hch := chainInv_runOps ops stateWF_initState chainInv_initState hops
    have hchained : chained (entriesFor (runOps initState ops).transactions id)
        = true := by
      cases hm : findMed (runOps initState ops) id with
      | some m => exact chained_of_chainEndsAt (hch.1 id m hm)
      | none => rw [hch.2 id hm]; rfl
    rw [hsplit] at hchained
    exact chained_pair hchained

/-- C5, witness: both parts of the amended theorem at concrete clean traces. -/
theorem journal_chain_c5_amended_witness :
    (InventoryTransaction.mk 0 "adjustment" 5 0 5 none sampleUserId).new_quantity
      = (InventoryTransaction.mk 0 "adjustment" 5 0 5 none sampleUserId).previous_quantity
        + (InventoryTransaction.mk 0 "adjustment" 5 0 5 none sampleUserId).quantity_change
    ∧ (InventoryTransaction.mk 0 "adjustment" 5 0 5 none sampleUserId).new_quantity
      = (InventoryTransaction.mk 0 "sale" (-2) 5 3 none sampleUserId).previous_quantity :=
  ⟨journal_chain_c5_amended.1 [Op.createMed ⟨"A", 0, 10⟩,
      Op.updStock 0 5 sampleUserId "adjustment" none]
      (InventoryTransaction.mk 0 "adjustment" 5 0 5 none sampleUserId) (by decide),
   journal_chain_c5_amended.2 [Op.createMed ⟨"A", 0, 10⟩,
      Op.updStock 0 5 sampleUserId "adjustment" none,
      Op.updStock 0 (-2) sampleUserId "sale" none] (by decide) 0 []
      (InventoryTransaction.mk 0 "adjustment" 5 0 5 none sampleUserId)
      (InventoryTransaction.mk 0 "sale" (-2) 5 3 none sampleUserId) [] (by decide)⟩

/-- C6, counterexample.  The claim says a zero `quantity_change` fails with
`InvalidArgument`; in the code a zero change is accepted: the call returns
`True` and a journal entry is logged. -/
theorem update_stock_c6_cex :
    (update_stock (runOps initState [Op.createMed ⟨"Paracetamol", 5, 10⟩]) 0 0
        sampleUserId "adjustment" none).2 = true
    ∧ (update_stock (runOps initState [Op.createMed ⟨"Paracetamol", 5, 10⟩]) 0 0
        sampleUserId "adjustment" none).1.transactions.length = 1 := by decide

/-- C6, amended.  `update_stock` does not distinguish its failure causes and
does not validate `quantity_change`: an unknown id, an insufficient stock, and
a failed journal write (malformed user id or unrecognized transaction type)
all return the same `False`, while a zero quantity change is accepted and
returns `True`. -/
theorem update_stock_c6_amended (s : PharmacyState) (mid : Nat)
    (uid ttype : String) (rid : Option String) :
    (∀ qc, findMed s mid = none → (update_stock s mid qc uid ttype rid).2 = false)
    ∧ (∀ qc m, findMed s mid = some m → m.quantity_in_stock + qc < 0 →
        (update_stock s mid qc uid ttype rid).2 = false)
    ∧ (∀ qc m, findMed s mid = some m → 0 ≤ m.quantity_in_stock + qc →
        (isValidObjectId uid && validTransactionType ttype) = false →
        (update_stock s mid qc uid ttype rid).2 = false)
    ∧ (∀ m, findMed s mid = some m → 0 ≤ m.quantity_in_stock →
        isValidObjectId uid = true → validTransactionType ttype = true →
        (update_stock s mid 0 uid ttype rid).2 = true) := by
  refine ⟨fun qc h => by rw [update_stock_not_found h],
          fun qc m hm hq => by rw [update_stock_insufficient hm hq],
          fun qc m hm hq hj => by rw [update_stock_journal_failed hm hq hj],
          fun m hm hq hu ht => by
            rw [update_stock_success hm (by omega) (by simp [hu, ht])]⟩

/-- C6, witness: all four clauses of the amended theorem at concrete calls. -/
theorem update_stock_c6_amended_witness :
    (update_stock (runOps initState [Op.createMed ⟨"Paracetamol", 5, 10⟩]) 1 7
        sampleUserId "adjustment" none).2 = false
    ∧ (update_stock (runOps initState [Op.createMed ⟨"Paracetamol", 5, 10⟩]) 0 (-9)
        sampleUserId "adjustment" none).2 = false
    ∧ (update_stock (runOps initState [Op.createMed ⟨"Paracetamol", 5, 10⟩]) 0 3
        sampleUserId "restock" none).2 = false
    ∧ (update_stock (runOps initState [Op.createMed ⟨"Paracetamol", 5, 10⟩]) 0 0
        sampleUserId "adjustment" none).2 = true :=
  ⟨(update_stock_c6_amended _ 1 sampleUserId "adjustment" none).1 7 (by decide),
   (update_stock_c6_amended _ 0 sampleUserId "adjustment" none).2.1 (-9)
      ⟨"Paracetamol", 5, 10⟩ (by decide) (by decide),
   (update_stock_c6_amended _ 0 sampleUserId "restock" none).2.2.1 3
      ⟨"Paracetamol", 5, 10⟩ (by decide) (by decide) (by decide),
   (update_stock_c6_amended _ 0 sampleUserId "adjustment" none).2.2.2
      ⟨"Paracetamol", 5, 10⟩ (by decide) (by decide) (by decide) (by decide)⟩

/-- C7.  The low-stock query returns exactly the medications whose current
quantity is at or below their reorder level (boundary equality included), in
agreement with the model's `is_low_stock` method. -/
theorem get_low_stock_c7 (s : PharmacyState) (id : Nat) (m : Medication) :
    ((id, m) ∈ get_low_stock s ↔
      (id, m) ∈ s.medications ∧ m.quantity_in_stock ≤ m.reorder_level)
    ∧ (m.is_low_stock = true ↔ m.quantity_in_stock ≤ m.reorder_level) := by
  constructor
  · rw [get_low_stock, List.mem_filter]
    simp
  · rw [Medication.is_low_stock]
    simp

/-- C9.  `update_stock` is a total function into a boolean (the blanket
`except` turns every exception into `False`): it returns `True` exactly when
the item resolves, the change keeps the quantity non-negative, the user id
parses as an ObjectId and the transaction type is recognized — i.e. exactly
when both the quantity update and the journal append succeed — and `False`
for every failure cause, none of which is distinguishable by the caller. -/
theorem update_stock_c9 (s : PharmacyState) (mid : Nat) (qc : Int)
    (uid ttype : String) (rid : Option String) :
    (update_stock s mid qc uid ttype rid).2 = true ↔
      (∃ m, findMed s mid = some m ∧ 0 ≤ m.quantity_in_stock + qc) ∧
      isValidObjectId uid = true ∧ validTransactionType ttype = true := by
  constructor
  · intro h
    cases hf : findMed s mid with
    | none => rw [update_stock_not_found hf] at h; cases h
    | some m =>
      by_cases hq : m.quantity_in_stock + qc < 0
      · rw [update_stock_insufficient hf hq] at h; cases h
      · by_cases hj : (isValidObjectId uid && validTransactionType ttype) = true
        · rw [Bool.and_eq_true] at hj
          exact ⟨⟨m, rfl, not_lt.mp hq⟩, hj.1, hj.2⟩
        · rw [update_stock_journal_failed hf (not_lt.mp hq) (by simpa using hj)] at h
          cases h
  · rintro ⟨⟨m, hf, hq⟩, hu, ht⟩
    rw [update_stock_success hf hq (by simp [hu, ht])]

/-- C10.  The user read and create endpoints strip the `password_hash` field
from the document before the response: no field of the returned document is
named `password_hash`. -/
theorem user_endpoints_c10 (users : List (String × UserDoc)) (uid : String)
    (doc : UserDoc) (data : List (String × String)) (created : UserDoc)
    (nid : String) :
    (get_user users uid = some doc →
      doc.all (fun f => f.1 != "password_hash") = true)
    ∧ (create_user data nid = some created →
      created.all (fun f => f.1 != "password_hash") = true) := by
  constructor
  · intro h
    unfold get_user at h
    cases hf : users.find? (fun p => p.1 == uid) with
    | none => rw [hf] at h; cases h
    | some p =>
      rw [hf] at h
      injection h with h
      rw [← h, List.all_eq_true]
      intro f hf2
      exact (List.mem_filter.mp hf2).2
  · intro h
    unfold create_user at h
    by_cases hv : validate_required_fields data
        ["username", "email", "password_hash", "role"] = true
    · rw [if_pos hv] at h
      injection h with h
      rw [← h, List.all_eq_true]
      intro f hf2
      exact (List.mem_filter.mp hf2).2
    · rw [if_neg hv] at h
      cases h

/-- C10, witness: a stored user with a password hash is returned without it,
and a created user document is returned without it. -/
theorem user_endpoints_c10_witness :
    ([("username", "alice")] : UserDoc).all (fun f => f.1 != "password_hash") = true
    ∧ ([("id", "u2"), ("username", "bob"), ("email", "bob@x.y"), ("role", "admin")] :
        UserDoc).all (fun f => f.1 != "password_hash") = true :=
  ⟨(user_endpoints_c10 [("u1", [("username", "alice"), ("password_hash", "h1")])]
      "u1" [("username", "alice")]
      [("username", "bob"), ("email", "bob@x.y"), ("password_hash", "h2"), ("role", "admin")]
      [("id", "u2"), ("username", "bob"), ("email", "bob@x.y"), ("role", "admin")]
      "u2").1 (by decide),
   (user_endpoints_c10 [("u1", [("username", "alice"), ("password_hash", "h1")])]
      "u1" [("username", "alice")]
      [("username", "bob"), ("email", "bob@x.y"), ("password_hash", "h2"), ("role", "admin")]
      [("id", "u2"), ("username", "bob"), ("email", "bob@x.y"), ("role", "admin")]
      "u2").2 (by decide)⟩
